import Mathlib

/-
  Verification of the sconsify playback coordination engine against its
  natural-language specification.  The definitions below are shallow
  embeddings of the Go source: pure functions become Lean functions, the
  event loops of the actors become folds of a step function over the
  list of signals they receive, and operations that can hit a Go
  run-time panic return Option, none marking the panic.  Randomness is
  modelled by passing the random draws in as arguments.
-/

namespace Sconsify

set_option maxRecDepth 100000

/-- Track models an sp.Track reference: an identifier plus the two
observable properties the embedded code inspects, whether
track.Availability() reports the track available and whether
player.Load would return an error on it. -/
structure Track where
  id : Nat
  available : Bool
  loadFails : Bool
deriving DecidableEq, Repr

/-- Shorthand for a concrete track that is available and loads fine. -/
def mkTrack (n : Nat) : Track :=
  { id := n, available := true, loadFails := false }

/-- Model of Go rand.Intn: the caller supplies the random draw r, and
Intn(n) panics when n is not positive, modelled as none. -/
def intn (r n : Nat) : Option Nat :=
  if n = 0 then none else some (r % n)

/-- Embedding of getNextTrack (src/ui/cui.go, lines 149-154): the
sequential successor of the current track index, returning 0 whenever
the current index is at or beyond the last track. -/
def getNextTrack (currentIndexTrack tracks : Int) : Int :=
  if currentIndexTrack ≥ tracks - 1 then 0 else currentIndexTrack + 1

/-- Embedding of getRandomNextTrack (src/ui/cui.go, lines 156-158): a
draw of rand.Intn(playlist.Tracks()). -/
def getRandomNextTrack (pl : List Track) (r : Nat) : Option Nat :=
  intn r pl.length

/-- Embedding of getRandomNextPlaylistAndTrack (src/ui/cui.go, lines
160-174).  The Go code draws rand.Intn(len(playlists)), walks the map
to the playlist at that position in iteration order (the list order
here), and then draws rand.Intn(playlist.Tracks()).  Either Intn call
panics when its bound is zero, modelled by none. -/
def getRandomNextPlaylistAndTrack (playlists : List (String × List Track))
    (pRand tRand : Nat) : Option (String × Option Nat) :=
  match intn pRand playlists.length with
  | none => none
  | some index =>
    match playlists.get? index with
    | none => none
    | some (name, pl) => some (name, intn tRand pl.length)

/-- Lookup in an association list kept in insertion order, where a
later binding for the same key overwrites an earlier one, as Go map
assignment does. -/
def mapLookup {α : Type} (m : List (String × α)) (k : String) : Option α :=
  m.foldl (fun acc p => if p.1 = k then some p.2 else acc) none

/-- Playback mode held by the UI state; state.isAllRandomMode and
state.isRandomMode dispatch on it in playNextFromPlaylist. -/
inductive Mode where
  | sequential
  | random
  | allRandom
deriving DecidableEq, Repr

/-- The UI selection state read and written by playNext: the current
playlist name, the current track index and the active mode. -/
structure UiState where
  currentPlaylist : String
  currentIndexTrack : Int
  mode : Mode
deriving DecidableEq, Repr

/-- Modelled from the spec: state.hasPlaylistSelected is declared
outside src; per the spec the Playback Cursor holds a playlist name,
and nothing is selected when that name is empty. -/
def hasPlaylistSelected (st : UiState) : Bool :=
  st.currentPlaylist != ""

/-- Model of playlist.Track(i).Track(): a fetch at integer index i,
which is a Go run-time error outside the playlist bounds, modelled by
none. -/
def trackAt (pl : List Track) (i : Int) : Option Track :=
  if 0 ≤ i then pl.get? i.toNat else none

/-- Modelled from the spec: the Queue implementation is not under src.
Pop removes and returns the front element, with an empty sentinel
(none) when the queue is empty. -/
def queuePop (q : List Track) : Option Track × List Track :=
  (q.head?, q.tail)

/-- Modelled from the spec: IsEmpty is true iff the queue holds no
elements. -/
def queueIsEmpty (q : List Track) : Bool :=
  q.isEmpty

/-- Result of one playNext call: the queue after the call, the updated
selection state, the track handed to gui.play (none when nothing was
played), and whether the call hit a Go run-time panic. -/
structure PlayNextResult where
  queue : List Track
  st : UiState
  played : Option Track
  panicked : Bool
deriving DecidableEq, Repr

/-- Embedding of playNextFromPlaylist (src/ui/cui.go, lines 122-137):
dispatch on the active mode, update the cursor and fetch the selected
track; a failed Intn draw or an invalid track fetch is a panic. -/
def playNextFromPlaylist (playlists : List (String × List Track))
    (queue : List Track) (st : UiState) (pRand tRand : Nat) : PlayNextResult :=
  match st.mode with
  | Mode.allRandom =>
    match getRandomNextPlaylistAndTrack playlists pRand tRand with
    | some (name, some idx) =>
      let st1 : UiState :=
        { currentPlaylist := name, currentIndexTrack := (idx : Int), mode := st.mode }
      match mapLookup playlists name with
      | some pl =>
        { queue := queue, st := st1, played := trackAt pl st1.currentIndexTrack,
          panicked := (trackAt pl st1.currentIndexTrack).isNone }
      | none => { queue := queue, st := st1, played := none, panicked := true }
    | _ => { queue := queue, st := st, played := none, panicked := true }
  | Mode.random =>
    match mapLookup playlists st.currentPlaylist with
    | none => { queue := queue, st := st, played := none, panicked := true }
    | some pl =>
      match getRandomNextTrack pl tRand with
      | none => { queue := queue, st := st, played := none, panicked := true }
      | some idx =>
        let st1 : UiState :=
          { currentPlaylist := st.currentPlaylist, currentIndexTrack := (idx : Int),
            mode := st.mode }
        { queue := queue, st := st1, played := trackAt pl st1.currentIndexTrack,
          panicked := (trackAt pl st1.currentIndexTrack).isNone }
  | Mode.sequential =>
    match mapLookup playlists st.currentPlaylist with
    | none => { queue := queue, st := st, played := none, panicked := true }
    | some pl =>
      let idx := getNextTrack st.currentIndexTrack (pl.length : Int)
      let st1 : UiState :=
        { currentPlaylist := st.currentPlaylist, currentIndexTrack := idx, mode := st.mode }
      { queue := queue, st := st1, played := trackAt pl idx,
        panicked := (trackAt pl idx).isNone }

/-- Embedding of playNext (src/ui/cui.go, lines 113-120): consult the
queue first, and fall back to the playlist selection only when the
queue is empty. -/
def playNext (playlists : List (String × List Track)) (queue : List Track)
    (st : UiState) (pRand tRand : Nat) : PlayNextResult :=
  if !(queueIsEmpty queue) then
    let popped := queuePop queue
    { queue := popped.2, st := st, played := popped.1, panicked := false }
  else if hasPlaylistSelected st then
    playNextFromPlaylist playlists queue st pRand tRand
  else
    { queue := queue, st := st, played := none, panicked := false }

/-- Status messages the spotify actor pushes onto the event bus. -/
inductive StatusEvent where
  | notAvailable
  | msg (status : String) (t : Track)
deriving DecidableEq, Repr

/-- Observable state of the spotify actor: the fields of the Spotify
struct that the embedded functions touch, plus the externally visible
effects (emitted events, player calls, cleanup actions, the log.Fatal
exit and nil-dereference panics). -/
structure SpotifyState where
  currentTrack : Option Track
  paused : Bool
  statusOut : List StatusEvent
  loads : List Track
  plays : Nat
  pauseCalls : Nat
  nextPlayEmitted : Nat
  playTokenLostEmitted : Nat
  searches : List String
  artists : List String
  loggedOut : Bool
  cacheDeleted : Bool
  shutdownEmitted : Bool
  fatal : Bool
  panicked : Bool
deriving DecidableEq, Repr

/-- Initial actor state: nothing playing, no effects performed. -/
def initSpotify : SpotifyState :=
  { currentTrack := none, paused := false, statusOut := [], loads := [], plays := 0,
    pauseCalls := 0, nextPlayEmitted := 0, playTokenLostEmitted := 0, searches := [],
    artists := [], loggedOut := false, cacheDeleted := false, shutdownEmitted := false,
    fatal := false, panicked := false }

/-- Embedding of updateStatus (src/unnamed/part_000, lines 251-256):
set currentTrack and emit a formatted status message; dereferencing a
nil track is a panic. -/
def updateStatus (s : SpotifyState) (status : String) (t : Option Track) : SpotifyState :=
  match t with
  | none => { s with panicked := true }
  | some tr =>
    { s with currentTrack := some tr,
             statusOut := s.statusOut ++ [StatusEvent.msg status tr] }

/-- Embedding of play (src/unnamed/part_000, lines 233-245): an
unavailable track only emits the status message, a player.Load error
hits log.Fatal (process exit, modelled by the fatal flag), and
otherwise the track is loaded, played and the status updated. -/
def play (s : SpotifyState) (t : Option Track) : SpotifyState :=
  match t with
  | none => { s with panicked := true }
  | some tr =>
    if !tr.available then
      { s with statusOut := s.statusOut ++ [StatusEvent.notAvailable] }
    else
      let s1 := { s with loads := s.loads ++ [tr] }
      if tr.loadFails then { s1 with fatal := true }
      else updateStatus { s1 with plays := s1.plays + 1 } "Playing" (some tr)

/-- Embedding of playCurrentTrack (src/unnamed/part_000): replay the
current track, then clear the paused flag; the clearing is unreachable
after a process exit or a panic inside play. -/
def playCurrentTrack (s : SpotifyState) : SpotifyState :=
  let s1 := play s s.currentTrack
  if s1.fatal || s1.panicked then s1 else { s1 with paused := false }

/-- Embedding of pauseCurrentTrack (src/unnamed/part_000): call
player.Pause, update the status and set the paused flag. -/
def pauseCurrentTrack (s : SpotifyState) : SpotifyState :=
  let s1 := updateStatus { s with pauseCalls := s.pauseCalls + 1 } "Paused" s.currentTrack
  if s1.panicked then s1 else { s1 with paused := true }

/-- Embedding of isPausedOrPlaying (src/unnamed/part_000): a current
track exists. -/
def isPausedOrPlaying (s : SpotifyState) : Bool :=
  s.currentTrack.isSome

/-- Embedding of pause (src/unnamed/part_000, lines 207-215): a toggle
between playing and paused, a no-op when nothing is current. -/
def pause (s : SpotifyState) : SpotifyState :=
  if isPausedOrPlaying s then
    if s.paused then playCurrentTrack s else pauseCurrentTrack s
  else s

/-- Embedding of shutdownSpotify (src/unnamed/part_000, lines 102-106):
log out of the session, delete the cache and broadcast Shutdown.  The
function does not stop the event loop. -/
def shutdownSpotify (s : SpotifyState) : SpotifyState :=
  { s with loggedOut := true, cacheDeleted := true, shutdownEmitted := true }

/-- Signals multiplexed by the waitForEvents select loop
(src/spotify/spotify.go, lines 158-179). -/
inductive Signal where
  | endOfTrack
  | playTokenLost
  | playSig (t : Track)
  | pauseSig
  | replaySig
  | shutdownSig
  | searchSig (q : String)
  | artistSig (a : String)
deriving DecidableEq, Repr

/-- One iteration of the waitForEvents select loop
(src/spotify/spotify.go, lines 158-179).  After log.Fatal the process
is gone and after a panic the goroutine is dead, so no further signal
is handled; otherwise every arriving signal is dispatched to its case.
The shutdown case calls shutdownSpotify and the loop continues: the
source has no return or break there. -/
def waitForEventsStep (s : SpotifyState) (sig : Signal) : SpotifyState :=
  if s.fatal || s.panicked then s
  else
    match sig with
    | Signal.endOfTrack => { s with nextPlayEmitted := s.nextPlayEmitted + 1 }
    | Signal.playTokenLost => { s with playTokenLostEmitted := s.playTokenLostEmitted + 1 }
    | Signal.playSig t => play s (some t)
    | Signal.pauseSig => pause s
    | Signal.replaySig => playCurrentTrack s
    | Signal.shutdownSig => shutdownSpotify s
    | Signal.searchSig q => { s with searches := s.searches ++ [q] }
    | Signal.artistSig a => { s with artists := s.artists ++ [a] }

/-- The waitForEvents loop run over a finite prefix of the arriving
signals, in delivery order. -/
def waitForEvents (s : SpotifyState) (sigs : List Signal) : SpotifyState :=
  sigs.foldl waitForEventsStep s

/-- Result of one keyPressed call: the multi-key buffer and repeat
counter after the call, the handlers invoked during the call, each
paired with the counter value it observed, and the error value the
call returned. -/
structure KeyResult where
  buffer : List Char
  counter : Nat
  invoked : List (String × Nat)
  err : Option String
deriving DecidableEq, Repr

/-- Embedding of keyPressed (src/ui/cui.go, lines 654-676), with
explicit fuel for the self-call.  The self-call always restarts from an
empty buffer, after which the appended buffer has length one and the
recursing branch is unreachable, so fuel two is never exhausted; the
lemma keyPressedFuel_fuel_irrelevant below checks this.  Handlers are
identified by the command name stored in the SequentialKeys table, and
handlerErr gives the error value each handler returns. -/
def keyPressedFuel (seqKeys : List (String × String))
    (handlerErr : String → Option String) (view : String) :
    Nat → Char → List Char → Nat → KeyResult
  | 0, _, buffer, counter => { buffer := buffer, counter := counter, invoked := [], err := none }
  | fuel + 1, key, buffer0, counter =>
    let buffer := buffer0 ++ [key]
    let keyCombination :=
      match buffer with
      | [c] => String.mk [c]
      | c1 :: c2 :: _ => String.mk [c1, c2]
      | [] => ""
    match mapLookup seqKeys (view ++ " " ++ keyCombination) with
    | some cmd =>
      { buffer := [], counter := 0, invoked := [(cmd, counter)], err := handlerErr cmd }
    | none =>
      match buffer with
      | _ :: key1 :: _ => keyPressedFuel seqKeys handlerErr view fuel key1 [] counter
      | _ => { buffer := buffer, counter := counter, invoked := [], err := none }

/-- The keyPressed entry point: fuel two covers the one possible
self-call. -/
def keyPressed (seqKeys : List (String × String))
    (handlerErr : String → Option String) (view : String)
    (key : Char) (buffer : List Char) (counter : Nat) : KeyResult :=
  keyPressedFuel seqKeys handlerErr view 2 key buffer counter

/-- Embedding of multipleKeysNumberPressed (src/ui/cui.go, lines
678-685): digits accumulate into the repeat counter. -/
def multipleKeysNumberPressed (pressedNumber counter : Nat) : Nat :=
  if counter = 0 then pressedNumber else counter * 10 + pressedNumber

/-- Modelled from the spec: getOffsetFromTypedNumbers is declared
outside src; the spec says the default effective count is 1 when no
digits were typed, and the accumulated counter otherwise. -/
def getOffsetFromTypedNumbers (counter : Nat) : Nat :=
  if counter = 0 then 1 else counter

/-- Dispatcher state threaded through a keystroke sequence: the globals
multipleKeysBuffer and multipleKeysNumber, plus the accumulated record
of handler invocations. -/
structure DispState where
  buffer : List Char
  counter : Nat
  invoked : List (String × Nat)
deriving DecidableEq, Repr

/-- Dispatcher state at startup: empty buffer, zero counter. -/
def initDisp : DispState :=
  { buffer := [], counter := 0, invoked := [] }

/-- A raw keystroke: keybindings registers the digit keys to
multipleKeysNumberPressed and every other bound key to keyPressed. -/
inductive InputKey where
  | digit (n : Nat)
  | ch (c : Char)
deriving DecidableEq, Repr

/-- Dispatch of one raw keystroke, as registered by keybindings
(src/ui/cui.go, lines 540-640). -/
def dispatchKey (seqKeys : List (String × String))
    (handlerErr : String → Option String) (view : String)
    (s : DispState) (k : InputKey) : DispState :=
  match k with
  | InputKey.digit n => { s with counter := multipleKeysNumberPressed n s.counter }
  | InputKey.ch c =>
    let r := keyPressed seqKeys handlerErr view c s.buffer s.counter
    { buffer := r.buffer, counter := r.counter, invoked := s.invoked ++ r.invoked }

/-- Dispatch of a whole keystroke sequence in arrival order. -/
def dispatchKeys (seqKeys : List (String × String))
    (handlerErr : String → Option String) (view : String)
    (s : DispState) (ks : List InputKey) : DispState :=
  ks.foldl (dispatchKey seqKeys handlerErr view) s

/-- Command name constant (src/ui/cui.go, lines 385-408). -/
def PauseTrack : String := "PauseTrack"

/-- Command name constant (src/ui/cui.go, lines 385-408). -/
def ShuffleMode : String := "ShuffleMode"

/-- Command name constant (src/ui/cui.go, lines 385-408). -/
def ShuffleAllMode : String := "ShuffleAllMode"

/-- Command name constant (src/ui/cui.go, lines 385-408). -/
def NextTrack : String := "NextTrack"

/-- Command name constant (src/ui/cui.go, lines 385-408). -/
def ReplayTrack : String := "ReplayTrack"

/-- Command name constant (src/ui/cui.go, lines 385-408). -/
def Search : String := "Search"

/-- Command name constant (src/ui/cui.go, lines 385-408). -/
def Quit : String := "Quit"

/-- Command name constant (src/ui/cui.go, lines 385-408). -/
def QueueTrack : String := "QueueTrack"

/-- Command name constant (src/ui/cui.go, lines 385-408). -/
def QueuePlaylist : String := "QueuePlaylist"

/-- Command name constant (src/ui/cui.go, lines 385-408). -/
def RepeatPlayingTrack : String := "RepeatPlayingTrack"

/-- Command name constant (src/ui/cui.go, lines 385-408). -/
def RemoveTrack : String := "RemoveTrack"

/-- Command name constant (src/ui/cui.go, lines 385-408). -/
def RemoveAllTracks : String := "RemoveAllTracks"

/-- Command name constant (src/ui/cui.go, lines 385-408). -/
def GoToFirstLine : String := "GoToFirstLine"

/-- Command name constant (src/ui/cui.go, lines 385-408). -/
def GoToLastLine : String := "GoToLastLine"

/-- Command name constant (src/ui/cui.go, lines 385-408). -/
def PlaySelectedTrack : String := "PlaySelectedTrack"

/-- Command name constant (src/ui/cui.go, lines 385-408). -/
def Up : String := "Up"

/-- Command name constant (src/ui/cui.go, lines 385-408). -/
def Down : String := "Down"

/-- Command name constant (src/ui/cui.go, lines 385-408). -/
def Left : String := "Left"

/-- Command name constant (src/ui/cui.go, lines 385-408). -/
def Right : String := "Right"

/-- Command name constant (src/ui/cui.go, lines 385-408). -/
def OpenCloseFolder : String := "OpenCloseFolder"

/-- Command name constant (src/ui/cui.go, lines 385-408). -/
def ArtistAlbums : String := "ArtistAlbums"

/-- Command name constant (src/ui/cui.go, lines 385-408). -/
def CreatePlaylist : String := "CreatePlaylist"

/-- Modelled from the spec: the view-name constants are declared
outside src; the spec names the views playlists, tracks and queue. -/
def VIEW_TRACKS : String := "tracks"

/-- Modelled from the spec: see VIEW_TRACKS. -/
def VIEW_PLAYLISTS : String := "playlists"

/-- Modelled from the spec: see VIEW_TRACKS. -/
def VIEW_QUEUE : String := "queue"

/-- Key code of gocui.KeyEnter (external library constant). -/
def keyEnterChar : Char := Char.ofNat 13

/-- Key code of gocui.KeySpace (external library constant). -/
def keySpaceChar : Char := ' '

/-- Key code of gocui.KeyArrowUp (external library constant). -/
def keyArrowUpChar : Char := Char.ofNat 65517

/-- Key code of gocui.KeyArrowDown (external library constant). -/
def keyArrowDownChar : Char := Char.ofNat 65516

/-- Key code of gocui.KeyArrowLeft (external library constant). -/
def keyArrowLeftChar : Char := Char.ofNat 65515

/-- Key code of gocui.KeyArrowRight (external library constant). -/
def keyArrowRightChar : Char := Char.ofNat 65514

/-- Embedding of the special-token translation inside configureKey
(src/ui/cui.go, lines 512-525). -/
def mapSpecial (key : String) : String :=
  match key with
  | "<enter>" => String.mk [keyEnterChar]
  | "<space>" => String.mk [keySpaceChar]
  | "<up>" => String.mk [keyArrowUpChar]
  | "<down>" => String.mk [keyArrowDownChar]
  | "<left>" => String.mk [keyArrowLeftChar]
  | "<right>" => String.mk [keyArrowRightChar]
  | k => k

/-- Embedding of defaultValues (src/ui/cui.go, lines 415-487) applied
to a fresh keyboard with no user key file: every addKey call appends
its key and command pair, in source order. -/
def defaultConfiguredKeys : List (String × String) :=
  [("p", PauseTrack), ("s", ShuffleMode), ("S", ShuffleAllMode),
   (">", NextTrack), ("<", ReplayTrack), ("/", Search), ("q", Quit),
   ("u", QueueTrack), ("u", QueuePlaylist), ("r", RepeatPlayingTrack),
   ("dd", RemoveTrack), ("D", RemoveAllTracks), ("gg", GoToFirstLine),
   ("G", GoToLastLine), ("<space>", PlaySelectedTrack),
   ("<enter>", PlaySelectedTrack), ("<up>", Up), ("k", Up),
   ("<down>", Down), ("j", Down), ("<left>", Left), ("h", Left),
   ("<right>", Right), ("l", Right), ("<space>", OpenCloseFolder),
   ("i", ArtistAlbums), ("c", CreatePlaylist)]

/-- Embedding of configureKey (src/ui/cui.go, lines 510-538): for every
configured key and command pair naming the given command, register the
handler under the view name, a space and the translated key; an empty
view registers it for the three browsing views.  The handler is
recorded by its command name. -/
def configureKey (cfg : List (String × String)) (command view : String)
    (seq : List (String × String)) : List (String × String) :=
  cfg.foldl
    (fun acc p =>
      let key := mapSpecial p.1
      if p.2 = command then
        if view = "" then
          acc ++ [(VIEW_PLAYLISTS ++ " " ++ key, command),
                  (VIEW_QUEUE ++ " " ++ key, command),
                  (VIEW_TRACKS ++ " " ++ key, command)]
        else acc ++ [(view ++ " " ++ key, command)]
      else acc)
    seq

/-- The commands configured for every browsing view inside the view
loop of keybindings (src/ui/cui.go, lines 551-602), in call order. -/
def viewLoopCommands : List String :=
  [PauseTrack, ShuffleMode, ShuffleAllMode, NextTrack, ReplayTrack,
   Search, RepeatPlayingTrack, Quit, GoToFirstLine, GoToLastLine,
   Up, Down, RemoveTrack, RemoveAllTracks]

/-- The SequentialKeys table built by keybindings (src/ui/cui.go, lines
540-640) from the default configured keys: the per-view loop followed
by the view-specific registrations. -/
def sequentialKeys : List (String × String) :=
  let s0 :=
    [VIEW_TRACKS, VIEW_PLAYLISTS, VIEW_QUEUE].foldl
      (fun acc view =>
        viewLoopCommands.foldl
          (fun acc c => configureKey defaultConfiguredKeys c view acc) acc)
      []
  let s1 := configureKey defaultConfiguredKeys QueueTrack VIEW_TRACKS s0
  let s2 := configureKey defaultConfiguredKeys QueuePlaylist VIEW_PLAYLISTS s1
  let s3 := configureKey defaultConfiguredKeys PlaySelectedTrack VIEW_TRACKS s2
  let s4 := configureKey defaultConfiguredKeys Left VIEW_TRACKS s3
  let s5 := configureKey defaultConfiguredKeys Left VIEW_QUEUE s4
  let s6 := configureKey defaultConfiguredKeys Right VIEW_PLAYLISTS s5
  let s7 := configureKey defaultConfiguredKeys Right VIEW_TRACKS s6
  let s8 := configureKey defaultConfiguredKeys OpenCloseFolder VIEW_PLAYLISTS s7
  let s9 := configureKey defaultConfiguredKeys ArtistAlbums VIEW_TRACKS s8
  configureKey defaultConfiguredKeys CreatePlaylist VIEW_QUEUE s9

/-- Helper: with an empty entry buffer the appended buffer has a single
character, so the self-call branch is unreachable and any positive fuel
gives the same result. -/
theorem keyPressedFuel_empty_buffer (seqKeys : List (String × String))
    (handlerErr : String → Option String) (view : String) (m : Nat)
    (key : Char) (counter : Nat) :
    keyPressedFuel seqKeys handlerErr view (m + 1) key [] counter
      = keyPressedFuel seqKeys handlerErr view 1 key [] counter := by
  rfl

/-- Helper: the fixed fuel of two in keyPressed is not a restriction,
since the one self-call restarts from an empty buffer: any fuel of at
least two computes the same result. -/
theorem keyPressedFuel_fuel_irrelevant (seqKeys : List (String × String))
    (handlerErr : String → Option String) (view : String) (n : Nat)
    (key : Char) (buffer : List Char) (counter : Nat) :
    keyPressedFuel seqKeys handlerErr view (n + 2) key buffer counter
      = keyPressedFuel seqKeys handlerErr view 2 key buffer counter := by
  cases hb : buffer ++ [key] with
  | nil => exact absurd hb (by simp)
  | cons c1 rest =>
    cases rest with
    | nil =>
      simp only [keyPressedFuel, hb]
    | cons c2 rest2 =>
      simp only [keyPressedFuel, hb]
      cases hl : mapLookup seqKeys (view ++ " " ++ String.mk [c1, c2]) with
      | some cmd => simp
      | none =>
        simp only []
        exact keyPressedFuel_empty_buffer seqKeys handlerErr view (n + 1) c2 counter

/-- Helper: shape of every keyPressed result — the buffer it leaves
behind has at most one character, and whenever a handler was invoked
both the buffer and the repeat counter have been reset. -/
theorem keyPressed_shape (seqKeys : List (String × String))
    (handlerErr : String → Option String) (view : String)
    (key : Char) (buffer : List Char) (counter : Nat) :
    ((keyPressed seqKeys handlerErr view key buffer counter).buffer.length ≤ 1)
    ∧ ((keyPressed seqKeys handlerErr view key buffer counter).invoked ≠ [] →
        (keyPressed seqKeys handlerErr view key buffer counter).buffer = []
        ∧ (keyPressed seqKeys handlerErr view key buffer counter).counter = 0) := by
  unfold keyPressed
  cases hb : buffer ++ [key] with
  | nil => exact absurd hb (by simp)
  | cons c1 rest =>
    cases rest with
    | nil =>
      simp only [keyPressedFuel, hb]
      cases hl : mapLookup seqKeys (view ++ " " ++ String.mk [c1]) with
      | some cmd => simp
      | none => simp
    | cons c2 rest2 =>
      simp only [keyPressedFuel, hb]
      cases hl : mapLookup seqKeys (view ++ " " ++ String.mk [c1, c2]) with
      | some cmd => simp
      | none =>
        simp only []
        cases hl2 : mapLookup seqKeys (view ++ " " ++ String.mk [c2]) with
        | some cmd => simp [keyPressedFuel, hl2]
        | none => simp [keyPressedFuel, hl2]

/-- Helper: playNextFromPlaylist never touches the queue, whatever the
mode and whatever the draws. -/
theorem playNextFromPlaylist_queue_unchanged (playlists : List (String × List Track))
    (q : List Track) (st : UiState) (pR tR : Nat) :
    (playNextFromPlaylist playlists q st pR tR).queue = q := by
  unfold playNextFromPlaylist
  cases hm : st.mode <;> (repeat' split) <;> rfl

/-- C1: evaluation at the failing input.  With a collection holding the
zero-track playlist named empty first in iteration order and the random
playlist draw selecting it, getRandomNextPlaylistAndTrack chooses the
zero-track playlist and the track draw is rand.Intn(0), a run-time
panic (modelled by none) — the zero-track playlist is not skipped and
the invalid-index operation does occur. -/
theorem getRandomNextPlaylistAndTrack_chooses_empty :
    getRandomNextPlaylistAndTrack
        [("empty", []), ("full", [mkTrack 1, mkTrack 2, mkTrack 3])] 0 0
      = some ("empty", none) := rfl

/-- C2 counterexample: starting from a playing state, delivering
Shutdown and then Pause leaves the actor paused, while Shutdown alone
does not — the Pause arriving after Shutdown is still processed and
changes the actor state, contradicting the claim. -/
theorem shutdown_then_pause_processed :
    (waitForEvents { initSpotify with currentTrack := some (mkTrack 1) }
        [Signal.shutdownSig, Signal.pauseSig]).paused = true
    ∧ (waitForEvents { initSpotify with currentTrack := some (mkTrack 1) }
        [Signal.shutdownSig]).paused = false :=
  ⟨rfl, rfl⟩

/-- C2 amended: on observing Shutdown the loop performs the cleanup
(session logout, cache deletion, Shutdown broadcast) but does not
terminate — a signal delivered after Shutdown is still dispatched, and
in particular a later Pause toggles the paused flag whenever a current
track exists. -/
theorem shutdown_cleanup_but_loop_continues (s : SpotifyState) (t : Track)
    (hf : s.fatal = false) (hp : s.panicked = false) :
    (waitForEventsStep s Signal.shutdownSig).loggedOut = true
    ∧ (waitForEventsStep s Signal.shutdownSig).cacheDeleted = true
    ∧ (waitForEventsStep s Signal.shutdownSig).shutdownEmitted = true
    ∧ (s.currentTrack = some t → s.paused = false →
        (waitForEventsStep (waitForEventsStep s Signal.shutdownSig)
            Signal.pauseSig).paused = true) := by
  refine ⟨?_, ?_, ?_, ?_⟩ <;>
    simp only [waitForEventsStep, shutdownSpotify, hf, hp, Bool.or_self, if_false,
      Bool.false_or]
  · rfl
  · rfl
  · rfl
  · intro h1 h2
    simp [pause, isPausedOrPlaying, h1, h2, pauseCurrentTrack, updateStatus, hf, hp]

/-- C2 witness: the amended theorem applied to a concrete playing
state. -/
theorem shutdown_cleanup_but_loop_continues_witness :
    (waitForEventsStep
        (waitForEventsStep { initSpotify with currentTrack := some (mkTrack 1) }
          Signal.shutdownSig) Signal.pauseSig).paused = true :=
  (shutdown_cleanup_but_loop_continues
      { initSpotify with currentTrack := some (mkTrack 1) } (mkTrack 1) rfl rfl).2.2.2
    rfl rfl

/-- C3 counterexample: an available track whose player.Load fails makes
play call log.Fatal — the process exits, no status is emitted, and a
signal arriving afterwards is not serviced, contradicting the claim
that load failures are reported via status and the loop continues. -/
theorem load_failure_crashes_loop :
    (play initSpotify (some { id := 1, available := true, loadFails := true })).fatal = true
    ∧ (play initSpotify
        (some { id := 1, available := true, loadFails := true })).statusOut = []
    ∧ (waitForEvents initSpotify
        [Signal.playSig { id := 1, available := true, loadFails := true },
         Signal.endOfTrack]).nextPlayEmitted = 0 :=
  ⟨rfl, rfl, rfl⟩

/-- C3 amended: a track load failure during the running loop is handled
by log.Fatal — the actor is marked fatally exited, no status message is
emitted, and every signal arriving afterwards is left unprocessed. -/
theorem load_failure_is_log_fatal (s : SpotifyState) (t : Track) (sig : Signal)
    (hav : t.available = true) (hlf : t.loadFails = true) :
    (play s (some t)).fatal = true
    ∧ (play s (some t)).statusOut = s.statusOut
    ∧ waitForEventsStep (play s (some t)) sig = play s (some t) := by
  have hplay : play s (some t) = { s with loads := s.loads ++ [t], fatal := true } := by
    simp [play, hav, hlf]
  refine ⟨by rw [hplay], by rw [hplay], ?_⟩
  rw [hplay]
  simp [waitForEventsStep]

/-- C3 witness: the amended theorem applied to a concrete load-failing
track and a concrete later signal. -/
theorem load_failure_is_log_fatal_witness :
    (play initSpotify (some { id := 1, available := true, loadFails := true })).fatal = true
    ∧ (play initSpotify
        (some { id := 1, available := true, loadFails := true })).statusOut
        = initSpotify.statusOut
    ∧ waitForEventsStep
        (play initSpotify (some { id := 1, available := true, loadFails := true }))
        Signal.endOfTrack
        = play initSpotify (some { id := 1, available := true, loadFails := true }) :=
  load_failure_is_log_fatal initSpotify { id := 1, available := true, loadFails := true }
    Signal.endOfTrack rfl rfl

/-- C4 counterexample: with dd bound in the tracks view, pressing x
twice builds the two-character buffer xx, which fails to match; the
second x is rechecked alone and also fails, yet the dispatcher keeps
that character buffered instead of returning to an empty buffer. -/
theorem failed_recheck_nonempty_buffer :
    (dispatchKeys [("tracks dd", RemoveTrack)] (fun _ => none) "tracks" initDisp
        [InputKey.ch 'x', InputKey.ch 'x']).buffer ≠ [] := by
  decide

/-- C4 amended: when a two-character buffer fails to match, the second
character is rechecked alone as a fresh one-character buffer; if that
recheck also fails, the dispatcher keeps the second character as a
one-character buffer, invokes no handler, and returns nil — never an
error. -/
theorem failed_recheck_buffers_second_key (seqKeys : List (String × String))
    (handlerErr : String → Option String) (view : String) (k1 k2 : Char)
    (counter : Nat)
    (h2 : mapLookup seqKeys (view ++ " " ++ String.mk [k1, k2]) = none)
    (h1 : mapLookup seqKeys (view ++ " " ++ String.mk [k2]) = none) :
    keyPressed seqKeys handlerErr view k2 [k1] counter
      = { buffer := [k2], counter := counter, invoked := [], err := none } := by
  simp [keyPressed, keyPressedFuel, h2, h1]

/-- C4 witness: the amended theorem applied to an empty binding table
and the keystrokes x, x. -/
theorem failed_recheck_buffers_second_key_witness :
    keyPressed [] (fun _ => none) "tracks" 'x' ['x'] 7
      = { buffer := ['x'], counter := 7, invoked := [], err := none } :=
  failed_recheck_buffers_second_key [] (fun _ => none) "tracks" 'x' 'x' 7 rfl rfl

/-- C5: the repeat counter accumulates digits as counter == 0 ? digit :
counter times ten plus digit, so typing 3 then 1 and then the bound key
u hands the handler the count 31; keyPressed resets the counter to zero
after any successful match; and with no digits typed the effective
count getOffsetFromTypedNumbers is 1. -/
theorem repeat_counter_spec :
    (∀ (seqKeys : List (String × String)) (handlerErr : String → Option String)
        (view : String) (key : Char) (buffer : List Char) (counter : Nat),
        (keyPressed seqKeys handlerErr view key buffer counter).invoked ≠ [] →
        (keyPressed seqKeys handlerErr view key buffer counter).counter = 0)
    ∧ (dispatchKeys sequentialKeys (fun _ => none) VIEW_TRACKS initDisp
        [InputKey.digit 3, InputKey.digit 1, InputKey.ch 'u']).invoked
        = [(QueueTrack, 31)]
    ∧ (dispatchKeys sequentialKeys (fun _ => none) VIEW_TRACKS initDisp
        [InputKey.digit 3, InputKey.digit 1, InputKey.ch 'u']).counter = 0
    ∧ getOffsetFromTypedNumbers 31 = 31
    ∧ (dispatchKeys sequentialKeys (fun _ => none) VIEW_TRACKS initDisp
        [InputKey.ch 'u']).invoked = [(QueueTrack, 0)]
    ∧ getOffsetFromTypedNumbers 0 = 1 :=
  ⟨fun seqKeys handlerErr view key buffer counter h =>
    ((keyPressed_shape seqKeys handlerErr view key buffer counter).2 h).2,
   rfl, rfl, rfl, rfl, rfl⟩

/-- C5 witness: a successful match with a pending counter of 5 resets
the counter to zero. -/
theorem repeat_counter_spec_witness :
    (keyPressed [("tracks u", QueueTrack)] (fun _ => none) "tracks" 'u' [] 5).invoked ≠ []
    ∧ (keyPressed [("tracks u", QueueTrack)] (fun _ => none) "tracks" 'u' [] 5).counter = 0 :=
  ⟨by decide,
   repeat_counter_spec.1 [("tracks u", QueueTrack)] (fun _ => none) "tracks" 'u' [] 5
     (by decide)⟩

/-- C6: with the default table binding dd to RemoveTrack, a first d in
the tracks view invokes no handler and leaves exactly one buffered key;
the second d invokes exactly the RemoveTrack handler once and leaves
the buffer empty. -/
theorem dd_fires_once :
    (dispatchKeys sequentialKeys (fun _ => none) VIEW_TRACKS initDisp
        [InputKey.ch 'd']).invoked = []
    ∧ (dispatchKeys sequentialKeys (fun _ => none) VIEW_TRACKS initDisp
        [InputKey.ch 'd']).buffer = ['d']
    ∧ (dispatchKeys sequentialKeys (fun _ => none) VIEW_TRACKS initDisp
        [InputKey.ch 'd', InputKey.ch 'd']).invoked = [(RemoveTrack, 0)]
    ∧ (dispatchKeys sequentialKeys (fun _ => none) VIEW_TRACKS initDisp
        [InputKey.ch 'd', InputKey.ch 'd']).buffer = [] :=
  ⟨rfl, rfl, rfl, rfl⟩

/-- C7: for a playlist with N greater than zero tracks and any valid
current index i, getNextTrack yields the successor of i modulo N; in
particular from N minus one it yields 0. -/
theorem getNextTrack_mod (i N : Int) (h0 : 0 ≤ i) (hiN : i < N) :
    getNextTrack i N = (i + 1) % N := by
  unfold getNextTrack
  split
  case isTrue h =>
    have hi : i = N - 1 := by omega
    subst hi
    have hN : N - 1 + 1 = N := by ring
    rw [hN, Int.emod_self]
  case isFalse h =>
    have h1 : (0 : Int) ≤ i + 1 := by omega
    have h2 : i + 1 < N := by omega
    rw [Int.emod_eq_of_lt h1 h2]

/-- C7 witness: the theorem applied at index 2 of a three-track
playlist, wrapping to 0. -/
theorem getNextTrack_mod_witness :
    (0 : Int) ≤ 2 ∧ (2 : Int) < 3 ∧ getNextTrack 2 3 = (2 + 1) % 3 :=
  ⟨by decide, by decide, getNextTrack_mod 2 3 (by decide) (by decide)⟩

/-- C8: playNext consults the queue first — a non-empty queue is popped
and its front track played with the selection state untouched; an empty
queue is left unchanged (never popped); with an empty queue and a
selected playlist, playNext delegates to playNextFromPlaylist, and in
every active mode the played track is the one the mode selector
chooses: getNextTrack in sequential mode, getRandomNextTrack in
shuffle mode, and getRandomNextPlaylistAndTrack in shuffle-all mode. -/
theorem playNext_queue_first (playlists : List (String × List Track))
    (q : List Track) (st : UiState) (pR tR : Nat) :
    (q ≠ [] →
      playNext playlists q st pR tR
        = { queue := q.tail, st := st, played := q.head?, panicked := false })
    ∧ (q = [] → (playNext playlists q st pR tR).queue = [])
    ∧ (q = [] → hasPlaylistSelected st = true →
        playNext playlists q st pR tR = playNextFromPlaylist playlists q st pR tR)
    ∧ (q = [] → hasPlaylistSelected st = true → st.mode = Mode.sequential →
        ∀ pl, mapLookup playlists st.currentPlaylist = some pl →
          (playNext playlists q st pR tR).played
            = trackAt pl (getNextTrack st.currentIndexTrack (pl.length : Int)))
    ∧ (q = [] → hasPlaylistSelected st = true → st.mode = Mode.random →
        ∀ pl idx, mapLookup playlists st.currentPlaylist = some pl →
          getRandomNextTrack pl tR = some idx →
          (playNext playlists q st pR tR).played = trackAt pl (idx : Int))
    ∧ (q = [] → hasPlaylistSelected st = true → st.mode = Mode.allRandom →
        ∀ name idx pl,
          getRandomNextPlaylistAndTrack playlists pR tR = some (name, some idx) →
          mapLookup playlists name = some pl →
          (playNext playlists q st pR tR).played = trackAt pl (idx : Int)) := by
  refine ⟨?_, ?_, ?_, ?_, ?_, ?_⟩
  · intro hq
    cases q with
    | nil => exact absurd rfl hq
    | cons a as => rfl
  · intro hq
    subst hq
    by_cases hs : hasPlaylistSelected st = true
    · simp [playNext, queueIsEmpty, hs, playNextFromPlaylist_queue_unchanged]
    · simp [playNext, queueIsEmpty, hs]
  · intro hq hsel
    subst hq
    simp [playNext, queueIsEmpty, hsel]
  · intro hq hsel hmode pl hpl
    subst hq
    simp [playNext, queueIsEmpty, hsel, playNextFromPlaylist, hmode, hpl]
  · intro hq hsel hmode pl idx hpl hidx
    subst hq
    simp [playNext, queueIsEmpty, hsel, playNextFromPlaylist, hmode, hpl, hidx]
  · intro hq hsel hmode name idx pl hrand hpl
    subst hq
    simp [playNext, queueIsEmpty, hsel, playNextFromPlaylist, hmode, hrand, hpl]

/-- C8 witness: a non-empty queue is popped in front of a selected
playlist; with an empty queue, the shuffle and shuffle-all conjuncts
are exercised at concrete draws. -/
theorem playNext_queue_first_witness :
    playNext [("a", [mkTrack 1, mkTrack 2])] [mkTrack 9]
        { currentPlaylist := "a", currentIndexTrack := 0, mode := Mode.sequential } 0 0
      = { queue := [],
          st := { currentPlaylist := "a", currentIndexTrack := 0, mode := Mode.sequential },
          played := some (mkTrack 9), panicked := false }
    ∧ (playNext [("a", [mkTrack 1, mkTrack 2])] []
        { currentPlaylist := "a", currentIndexTrack := 0, mode := Mode.random } 0 1).played
        = trackAt [mkTrack 1, mkTrack 2] 1
    ∧ (playNext [("a", [mkTrack 1, mkTrack 2])] []
        { currentPlaylist := "a", currentIndexTrack := 0, mode := Mode.allRandom } 0 1).played
        = trackAt [mkTrack 1, mkTrack 2] 1 :=
  ⟨(playNext_queue_first [("a", [mkTrack 1, mkTrack 2])] [mkTrack 9]
      { currentPlaylist := "a", currentIndexTrack := 0, mode := Mode.sequential } 0 0).1
    (by decide),
   (playNext_queue_first [("a", [mkTrack 1, mkTrack 2])] []
      { currentPlaylist := "a", currentIndexTrack := 0, mode := Mode.random } 0 1).2.2.2.2.1
    rfl (by decide) rfl [mkTrack 1, mkTrack 2] 1 (by decide) (by decide),
   (playNext_queue_first [("a", [mkTrack 1, mkTrack 2])] []
      { currentPlaylist := "a", currentIndexTrack := 0, mode := Mode.allRandom } 0 1).2.2.2.2.2
    rfl (by decide) rfl "a" 1 [mkTrack 1, mkTrack 2] (by decide) (by decide)⟩

/-- C9: play on an unavailable track only appends the status message
Not available — the whole actor state is otherwise unchanged, so
nothing is loaded or played, the current-track reference is kept and no
NextPlay skip is triggered. -/
theorem unavailable_track_status_only (s : SpotifyState) (t : Track)
    (h : t.available = false) :
    play s (some t)
      = { s with statusOut := s.statusOut ++ [StatusEvent.notAvailable] } := by
  simp [play, h]

/-- C9 witness: the theorem applied to a concrete unavailable track. -/
theorem unavailable_track_status_only_witness :
    play initSpotify (some { id := 2, available := false, loadFails := false })
      = { initSpotify with statusOut := [StatusEvent.notAvailable] } :=
  unavailable_track_status_only initSpotify
    { id := 2, available := false, loadFails := false } rfl

/-- C10: after every keyPressed return, its recursive fallback
included, the multi-key buffer holds at most one character, and it is
empty whenever a handler was invoked; hence from an entry buffer of at
most one character the transient appended buffer never exceeds two. -/
theorem keyPressed_buffer_at_most_one (seqKeys : List (String × String))
    (handlerErr : String → Option String) (view : String)
    (key : Char) (buffer : List Char) (counter : Nat) :
    ((keyPressed seqKeys handlerErr view key buffer counter).buffer.length ≤ 1)
    ∧ ((keyPressed seqKeys handlerErr view key buffer counter).invoked ≠ [] →
        (keyPressed seqKeys handlerErr view key buffer counter).buffer = []) :=
  ⟨(keyPressed_shape seqKeys handlerErr view key buffer counter).1,
   fun h => ((keyPressed_shape seqKeys handlerErr view key buffer counter).2 h).1⟩

/-- C10 witness: a successful match leaves an empty buffer. -/
theorem keyPressed_buffer_at_most_one_witness :
    (keyPressed [("tracks u", QueueTrack)] (fun _ => none) "tracks" 'u' [] 0).invoked ≠ []
    ∧ (keyPressed [("tracks u", QueueTrack)] (fun _ => none) "tracks" 'u' [] 0).buffer = [] :=
  ⟨by decide,
   (keyPressed_buffer_at_most_one [("tracks u", QueueTrack)] (fun _ => none) "tracks"
       'u' [] 0).2 (by decide)⟩

end Sconsify
